import Mathlib

/-!
Shallow embedding of the permission/role model and the multi-tenant
access-control code of the Real-Estate-Portfolio repository.

Sources embedded here:
* `src/lib/permissionService.ts` — roles, capability presets,
  `getPermissions`, `hasPermission`, `canAccessAgency`, `canManageUser`,
  `getRoleLevel`, `canAssignRole`.
* `src/lib/propertyService.ts` — `addProperty`, `deleteProperty`,
  `getPropertyById`.
* `src/lib/agencyService.ts` — `resendInvitation`, `acceptInvitation`.
* the error-handling module — `ErrorHandler.handleDatabaseError`.
* `src/contexts/AuthContext.tsx` — `signUp`.
-/

namespace RealEstate

/-- The four-role scheme of `src/lib/permissionService.ts`
(`export type Role = 'super_admin' | 'agency_admin' | 'agent' | 'viewer'`). -/
inductive Role where
  | super_admin
  | agency_admin
  | agent
  | viewer
deriving DecidableEq, Repr

/-- `user_profiles` row of the later schema (`src/lib/supabase.ts`):
`agency_id` is nullable, the role is the four-role scheme. -/
structure UserProfile where
  id : String
  agency_id : Option String
  name : String
  role : Role
  phone : Option String := none
  is_active : Bool := true
  last_login_at : Option String := none
  created_at : String := ""
  updated_at : String := ""
deriving DecidableEq, Repr

/-- The `Permission` interface of `src/lib/permissionService.ts`:
eighteen boolean capability flags. -/
structure Permission where
  -- Agency Management
  canCreateAgencies : Bool
  canViewAllAgencies : Bool
  canEditAgency : Bool
  canDeleteAgencies : Bool
  canSuspendAgencies : Bool
  -- User Management
  canInviteUsers : Bool
  canViewAgencyUsers : Bool
  canEditAgencyUsers : Bool
  canDeleteAgencyUsers : Bool
  canViewAllUsers : Bool
  -- Property Management
  canCreateProperties : Bool
  canEditProperties : Bool
  canDeleteProperties : Bool
  canViewProperties : Bool
  canViewAllProperties : Bool
  -- System Administration
  canAccessSystemSettings : Bool
  canViewSystemLogs : Bool
  canManageSubscriptions : Bool
deriving DecidableEq, Repr

/-- Capability names, one per field of `Permission`
(`keyof Permission` in the source). -/
inductive Cap where
  | canCreateAgencies
  | canViewAllAgencies
  | canEditAgency
  | canDeleteAgencies
  | canSuspendAgencies
  | canInviteUsers
  | canViewAgencyUsers
  | canEditAgencyUsers
  | canDeleteAgencyUsers
  | canViewAllUsers
  | canCreateProperties
  | canEditProperties
  | canDeleteProperties
  | canViewProperties
  | canViewAllProperties
  | canAccessSystemSettings
  | canViewSystemLogs
  | canManageSubscriptions
deriving DecidableEq, Repr

/-- Field lookup `permissions[permission]` used by `hasPermission`. -/
def Permission.capOf (perm : Permission) : Cap → Bool
  | Cap.canCreateAgencies => perm.canCreateAgencies
  | Cap.canViewAllAgencies => perm.canViewAllAgencies
  | Cap.canEditAgency => perm.canEditAgency
  | Cap.canDeleteAgencies => perm.canDeleteAgencies
  | Cap.canSuspendAgencies => perm.canSuspendAgencies
  | Cap.canInviteUsers => perm.canInviteUsers
  | Cap.canViewAgencyUsers => perm.canViewAgencyUsers
  | Cap.canEditAgencyUsers => perm.canEditAgencyUsers
  | Cap.canDeleteAgencyUsers => perm.canDeleteAgencyUsers
  | Cap.canViewAllUsers => perm.canViewAllUsers
  | Cap.canCreateProperties => perm.canCreateProperties
  | Cap.canEditProperties => perm.canEditProperties
  | Cap.canDeleteProperties => perm.canDeleteProperties
  | Cap.canViewProperties => perm.canViewProperties
  | Cap.canViewAllProperties => perm.canViewAllProperties
  | Cap.canAccessSystemSettings => perm.canAccessSystemSettings
  | Cap.canViewSystemLogs => perm.canViewSystemLogs
  | Cap.canManageSubscriptions => perm.canManageSubscriptions

/-- The cross-tenant capabilities named by the spec: `canViewAllAgencies`,
`canCreateAgencies`, `canDeleteAgencies`, `canViewAllUsers`,
`canViewAllProperties`, and the system-settings capabilities. -/
def crossTenantCap : Cap → Bool
  | Cap.canViewAllAgencies => true
  | Cap.canCreateAgencies => true
  | Cap.canDeleteAgencies => true
  | Cap.canViewAllUsers => true
  | Cap.canViewAllProperties => true
  | Cap.canAccessSystemSettings => true
  | Cap.canViewSystemLogs => true
  | Cap.canManageSubscriptions => true
  | _ => false

namespace PermissionService

/-- `getSuperAdminPermissions` preset. -/
def getSuperAdminPermissions : Permission :=
  { canCreateAgencies := true
    canViewAllAgencies := true
    canEditAgency := true
    canDeleteAgencies := true
    canSuspendAgencies := true
    canInviteUsers := true
    canViewAgencyUsers := true
    canEditAgencyUsers := true
    canDeleteAgencyUsers := true
    canViewAllUsers := true
    canCreateProperties := true
    canEditProperties := true
    canDeleteProperties := true
    canViewProperties := true
    canViewAllProperties := true
    canAccessSystemSettings := true
    canViewSystemLogs := true
    canManageSubscriptions := true }

/-- `getAgencyAdminPermissions` preset. -/
def getAgencyAdminPermissions : Permission :=
  { canCreateAgencies := false
    canViewAllAgencies := false
    canEditAgency := true
    canDeleteAgencies := false
    canSuspendAgencies := false
    canInviteUsers := true
    canViewAgencyUsers := true
    canEditAgencyUsers := true
    canDeleteAgencyUsers := true
    canViewAllUsers := false
    canCreateProperties := true
    canEditProperties := true
    canDeleteProperties := true
    canViewProperties := true
    canViewAllProperties := false
    canAccessSystemSettings := false
    canViewSystemLogs := false
    canManageSubscriptions := false }

/-- `getAgentPermissions` preset. -/
def getAgentPermissions : Permission :=
  { canCreateAgencies := false
    canViewAllAgencies := false
    canEditAgency := false
    canDeleteAgencies := false
    canSuspendAgencies := false
    canInviteUsers := false
    canViewAgencyUsers := true
    canEditAgencyUsers := false
    canDeleteAgencyUsers := false
    canViewAllUsers := false
    canCreateProperties := true
    canEditProperties := true
    canDeleteProperties := false
    canViewProperties := true
    canViewAllProperties := false
    canAccessSystemSettings := false
    canViewSystemLogs := false
    canManageSubscriptions := false }

/-- `getViewerPermissions` preset. -/
def getViewerPermissions : Permission :=
  { canCreateAgencies := false
    canViewAllAgencies := false
    canEditAgency := false
    canDeleteAgencies := false
    canSuspendAgencies := false
    canInviteUsers := false
    canViewAgencyUsers := true
    canEditAgencyUsers := false
    canDeleteAgencyUsers := false
    canViewAllUsers := false
    canCreateProperties := false
    canEditProperties := false
    canDeleteProperties := false
    canViewProperties := true
    canViewAllProperties := false
    canAccessSystemSettings := false
    canViewSystemLogs := false
    canManageSubscriptions := false }

/-- `getGuestPermissions` preset (all flags false). -/
def getGuestPermissions : Permission :=
  { canCreateAgencies := false
    canViewAllAgencies := false
    canEditAgency := false
    canDeleteAgencies := false
    canSuspendAgencies := false
    canInviteUsers := false
    canViewAgencyUsers := false
    canEditAgencyUsers := false
    canDeleteAgencyUsers := false
    canViewAllUsers := false
    canCreateProperties := false
    canEditProperties := false
    canDeleteProperties := false
    canViewProperties := false
    canViewAllProperties := false
    canAccessSystemSettings := false
    canViewSystemLogs := false
    canManageSubscriptions := false }

/-- `PermissionService.getPermissions`: a `null` profile gets the guest
preset, otherwise the preset of the profile's role. -/
def getPermissions : Option UserProfile → Permission
  | none => getGuestPermissions
  | some profile =>
    match profile.role with
    | Role.super_admin => getSuperAdminPermissions
    | Role.agency_admin => getAgencyAdminPermissions
    | Role.agent => getAgentPermissions
    | Role.viewer => getViewerPermissions

/-- `PermissionService.hasPermission`: look up one flag of the derived set. -/
def hasPermission (profile : Option UserProfile) (permission : Cap) : Bool :=
  (getPermissions profile).capOf permission

/-- `PermissionService.canAccessAgency`: `false` for a null profile,
`true` unconditionally for `super_admin`, otherwise
`profile.agency_id === agencyId`. -/
def canAccessAgency (profile : Option UserProfile) (agencyId : String) : Bool :=
  match profile with
  | none => false
  | some p =>
    if p.role = Role.super_admin then true
    else p.agency_id == some agencyId

/-- `PermissionService.canManageUser`: `false` for a null manager;
`true` for a `super_admin` manager; `true` for an `agency_admin` manager
sharing the target's `agency_id` when the target is not an
`agency_admin`; otherwise `manager.id === target.id`. -/
def canManageUser (manager : Option UserProfile) (target : UserProfile) : Bool :=
  match manager with
  | none => false
  | some m =>
    if m.role = Role.super_admin then true
    else if m.role = Role.agency_admin ∧ m.agency_id = target.agency_id ∧
            target.role ≠ Role.agency_admin then true
    else m.id == target.id

/-- `PermissionService.getRoleLevel`: the `levels` lookup table
(`viewer=1, agent=2, agency_admin=3, super_admin=4`; the `|| 0`
fallback of the source is unreachable for the enumerated roles). -/
def getRoleLevel : Role → Nat
  | Role.viewer => 1
  | Role.agent => 2
  | Role.agency_admin => 3
  | Role.super_admin => 4

/-- `PermissionService.canAssignRole`. -/
def canAssignRole (assignerRole targetRole : Role) : Bool :=
  if assignerRole = Role.super_admin ∧ targetRole ≠ Role.super_admin then true
  else if assignerRole = Role.agency_admin ∧
          getRoleLevel targetRole < getRoleLevel Role.agency_admin then true
  else false

end PermissionService

/-! ## Property service (`src/lib/propertyService.ts`, later schema) -/

/-- `PropertyInsert` of `src/lib/supabase.ts` (later schema): the
client-supplied payload for `addProperty`; `agency_id` is a required
field of the payload. -/
structure PropertyInsert where
  agency_id : String
  address : String
  price : Int
  listing_type : String
  property_type : String
  bedrooms : Nat := 0
  bathrooms : Nat := 0
  sqft : Nat := 0
  status : String
  agent : Option String := none
  owner_name : Option String := none
  owner_phone : Option String := none
  comments : Option String := none
deriving DecidableEq, Repr

/-- `properties` row of the later schema, including the audit columns. -/
structure Property where
  id : Nat
  agency_id : String
  address : String
  price : Int
  listing_type : String
  property_type : String
  bedrooms : Nat
  bathrooms : Nat
  sqft : Nat
  status : String
  agent : Option String
  owner_name : Option String
  owner_phone : Option String
  comments : Option String
  created_by : Option String
  updated_by : Option String
deriving DecidableEq, Repr

/-- The `properties` table with its id sequence. -/
structure PropDB where
  rows : List Property := []
  nextId : Nat := 1
deriving DecidableEq, Repr

/-- Backend error shape handed to the services
(`error.code` and `error.message` are what the source inspects). -/
structure DbError where
  code : Option String := none
  message : Option String := none
deriving DecidableEq, Repr

namespace PropertyService

/-- `PropertyService.addProperty`: requires an authenticated user, then
inserts `{...property, created_by: user.id, updated_by: user.id}` —
the payload's fields, `agency_id` included, are passed through
unchanged; only the two audit fields are added. -/
def addProperty (currentUser : Option String) (db : PropDB)
    (property : PropertyInsert) : Except String (PropDB × Property) :=
  match currentUser with
  | none => Except.error "User not authenticated"
  | some uid =>
    let row : Property :=
      { id := db.nextId
        agency_id := property.agency_id
        address := property.address
        price := property.price
        listing_type := property.listing_type
        property_type := property.property_type
        bedrooms := property.bedrooms
        bathrooms := property.bathrooms
        sqft := property.sqft
        status := property.status
        agent := property.agent
        owner_name := property.owner_name
        owner_phone := property.owner_phone
        comments := property.comments
        created_by := some uid
        updated_by := some uid }
    Except.ok ({ rows := db.rows ++ [row], nextId := db.nextId + 1 }, row)

/-- `PropertyService.deleteProperty`: issues
`delete().eq('id', id)` unconditionally — no capability or scope check
appears in the function; every row with the given id is removed and the
operation reports success. -/
def deleteProperty (db : PropDB) (id : Nat) : PropDB × Except String Unit :=
  ({ db with rows := db.rows.filter (fun r => !(r.id == id)) }, Except.ok ())

/-- `PropertyService.getPropertyById`: given the backend's response to
`select().eq('id', id).single()`, maps the `PGRST116` rejection to
`null` (absent row) and re-raises every other error. -/
def getPropertyById (resp : Except DbError Property) :
    Except DbError (Option Property) :=
  match resp with
  | Except.error e =>
    if e.code == some "PGRST116" then Except.ok none else Except.error e
  | Except.ok p => Except.ok (some p)

end PropertyService

/-! ## Error handler (`ErrorHandler.handleDatabaseError`) -/

/-- The `AppError` shape returned by the error handler
(the `details` passthrough field is omitted: it only echoes the input). -/
structure AppError where
  code : String
  message : String
  userMessage : String
deriving DecidableEq, Repr

/-- Does the character list start with the pattern? -/
def charsStartWith : List Char → List Char → Bool
  | _, [] => true
  | [], _ :: _ => false
  | a :: as, b :: bs => a == b && charsStartWith as bs

/-- Does the character list contain the pattern as a contiguous run? -/
def charsContain : List Char → List Char → Bool
  | [], pat => pat.isEmpty
  | a :: rest, pat => charsStartWith (a :: rest) pat || charsContain rest pat

/-- `message.includes(pat)` of the source. -/
def strContains (s pat : String) : Bool :=
  charsContain s.data pat.data

namespace ErrorHandler

/-- `ErrorHandler.handleDatabaseError`: branches on `error.code`
(`PGRST116`, `23505`, `23503`, `42501`, default), then on substrings of
`error.message` (`duplicate key`, `violates row-level security`),
reproducing each branch's `code`, `message` and `userMessage`. -/
def handleDatabaseError (error : DbError) : AppError :=
  match error.code with
  | some c =>
    if c = "PGRST116" then
      { code := "RLS_VIOLATION"
        message := "Row Level Security violation"
        userMessage := "You do not have permission to access this data. Please contact your administrator." }
    else if c = "23505" then
      { code := "DUPLICATE_ENTRY"
        message := "Duplicate entry"
        userMessage := "This record already exists. Please use different values." }
    else if c = "23503" then
      { code := "FOREIGN_KEY_VIOLATION"
        message := "Foreign key constraint violation"
        userMessage := "This operation would create invalid data relationships." }
    else if c = "42501" then
      { code := "INSUFFICIENT_PRIVILEGE"
        message := "Insufficient database privileges"
        userMessage := "You do not have permission to perform this action." }
    else
      { code := "DATABASE_ERROR"
        message := error.message.getD "Database operation failed"
        userMessage := "A database error occurred. Please try again or contact support." }
  | none =>
    if strContains (error.message.getD "") "duplicate key" then
      { code := "DUPLICATE_ENTRY"
        message := "Duplicate entry"
        userMessage := "This record already exists." }
    else if strContains (error.message.getD "") "violates row-level security" then
      { code := "RLS_VIOLATION"
        message := "Row Level Security violation"
        userMessage := "You do not have permission to access this data." }
    else
      { code := "UNKNOWN_DATABASE_ERROR"
        message := error.message.getD "Unknown database error"
        userMessage := "A database error occurred. Please try again." }

end ErrorHandler

/-! ## Ordinary signup (`src/contexts/AuthContext.tsx`, `signUp`) -/

/-- `agencies` row as created by `signUp` (only the name is supplied). -/
structure SignupAgency where
  id : String
  name : String
deriving DecidableEq, Repr

/-- `user_profiles` row as inserted by `signUp`; the role column of this
earlier scheme is the literal string the code inserts. -/
structure SignupProfile where
  id : String
  agency_id : Option String
  name : String
  role : String
deriving DecidableEq, Repr

/-- The state `signUp` mutates: the agencies and profiles tables
(the external auth table is elided; the fresh auth user id is an input). -/
structure AuthState where
  agencies : List SignupAgency := []
  profiles : List SignupProfile := []
  nextAgencyId : Nat := 0
deriving DecidableEq, Repr

/-- Fresh agency id drawn by the backend for the `insert` of step 2. -/
def freshAgencyId (s : AuthState) : String :=
  "agency-" ++ toString s.nextAgencyId

/-- `signUp(email, password, name, agencyName)` after the auth step has
produced `userId`: step 2 inserts a new agency `{name: agencyName}`,
step 3 inserts a profile `{id: userId, agency_id: agency.id, name,
role: 'admin'}`. Every signup takes this path — there is no
first-versus-later distinction. -/
def signUp (s : AuthState) (userId name agencyName : String) :
    AuthState × SignupProfile :=
  let aid := freshAgencyId s
  let agency : SignupAgency := { id := aid, name := agencyName }
  let profile : SignupProfile :=
    { id := userId, agency_id := some aid, name := name, role := "admin" }
  ({ agencies := s.agencies ++ [agency]
     profiles := s.profiles ++ [profile]
     nextAgencyId := s.nextAgencyId + 1 },
   profile)

/-! ## Agency invitations (`src/lib/agencyService.ts`) -/

/-- Invitation roles (`'agency_admin' | 'agent' | 'viewer'`). -/
inductive InvRole where
  | agency_admin
  | agent
  | viewer
deriving DecidableEq, Repr

/-- `AgencyInvitation` row. Timestamps are in epoch milliseconds
(matching the source's `Date.now()` arithmetic). -/
structure AgencyInvitation where
  id : String
  agency_id : String
  email : String
  role : InvRole
  invited_by : Option String := none
  token : String
  expires_at : Nat
  used_at : Option Nat := none
  created_at : Nat := 0
deriving DecidableEq, Repr

/-- `7 * 24 * 60 * 60 * 1000` — the seven-day expiry window in ms. -/
def sevenDaysMs : Nat := 7 * 24 * 60 * 60 * 1000

namespace AgencyService

/-- `AgencyService.resendInvitation`: updates the row matched by
`eq('id', invitationId)` with a fresh token and
`expires_at = now + 7 days`; no other column is touched and no
`used_at`-is-null condition appears in the query. `single()` on an
empty match is the `PGRST116` error. -/
def resendInvitation (db : List AgencyInvitation)
    (invitationId newToken : String) (now : Nat) :
    Except String (List AgencyInvitation × AgencyInvitation) :=
  match db.find? (fun i => i.id == invitationId) with
  | none => Except.error "PGRST116"
  | some inv =>
    let inv2 := { inv with token := newToken, expires_at := now + sevenDaysMs }
    Except.ok
      (db.map (fun i => if i.id == invitationId then
                 { i with token := newToken, expires_at := now + sevenDaysMs }
               else i),
       inv2)

end AgencyService

/-! ## Invitation redemption (`accept_invitation` stored procedure) -/

/-- Profile produced by redemption, bound to the invitation's agency
and role. -/
structure RedeemedProfile where
  id : String
  agency_id : Option String
  role : InvRole
deriving DecidableEq, Repr

/-- Redemption outcomes distinguished by the spec:
success, `NotFound`, `AlreadyUsed`, `Expired`. -/
inductive RedeemResult where
  | ok (p : RedeemedProfile)
  | notFound
  | alreadyUsed
  | expired
deriving DecidableEq, Repr

def RedeemResult.isOk : RedeemResult → Bool
  | RedeemResult.ok _ => true
  | _ => false

def RedeemResult.isAlreadyUsed : RedeemResult → Bool
  | RedeemResult.alreadyUsed => true
  | _ => false

/-- State touched by redemption: the invitations table and the profiles
it creates. -/
structure RedeemState where
  invitations : List AgencyInvitation
  profiles : List RedeemedProfile := []
deriving DecidableEq, Repr

/-- Modelled from the spec: the `accept_invitation` stored procedure that
`AgencyService.acceptInvitation` invokes via `supabase.rpc` is not in the
repository. Per the spec it is "a single transactional operation (e.g., a
stored procedure or an equivalent compare-and-swap on `used_at`)": one
atomic step that checks the token exists, is unused, and is unexpired
(valid iff `used_at IS NULL AND expires_at > now()`), then creates the
UserProfile bound to the invitation's agency and role and stamps
`used_at = now()` together. Failures: `NotFound`, `AlreadyUsed`,
`Expired`, in that check order. -/
def acceptInvitation (s : RedeemState) (token identity : String) (now : Nat) :
    RedeemState × RedeemResult :=
  match s.invitations.find? (fun i => i.token == token) with
  | none => (s, RedeemResult.notFound)
  | some inv =>
    match inv.used_at with
    | some _ => (s, RedeemResult.alreadyUsed)
    | none =>
      if inv.expires_at ≤ now then (s, RedeemResult.expired)
      else
        let profile : RedeemedProfile :=
          { id := identity, agency_id := some inv.agency_id, role := inv.role }
        ({ invitations :=
             s.invitations.map (fun i =>
               if i.token == token then { i with used_at := some now } else i)
           profiles := s.profiles ++ [profile] },
         RedeemResult.ok profile)

/-- Sequential composition of redemption attempts on one token: since
each redemption is a single atomic step, any concurrent schedule of
attempts is equivalent to some sequential order of them. -/
def acceptAll (s : RedeemState) (token : String) (ids : List String)
    (now : Nat) : RedeemState × List RedeemResult :=
  match ids with
  | [] => (s, [])
  | id :: rest =>
    let step := acceptInvitation s token id now
    let next := acceptAll step.1 token rest now
    (next.1, step.2 :: next.2)

/-! ## Concrete fixtures used by witnesses and counterexamples -/

/-- A viewer profile. -/
def pv1 : UserProfile :=
  { id := "v1", agency_id := some "A1", name := "Viewer One", role := Role.viewer }

/-- A second viewer profile with a different identity and agency. -/
def pv2 : UserProfile :=
  { id := "v2", agency_id := some "A9", name := "Viewer Two", role := Role.viewer }

/-- An agent bound to agency `A1`. -/
def callerA1 : UserProfile :=
  { id := "user-1", agency_id := some "A1", name := "Agent One", role := Role.agent }

/-- One super-admin. -/
def superA : UserProfile :=
  { id := "s1", agency_id := none, name := "Root A", role := Role.super_admin }

/-- A second, distinct super-admin. -/
def superB : UserProfile :=
  { id := "s2", agency_id := none, name := "Root B", role := Role.super_admin }

/-- An agency-admin with no agency. -/
def orphanAdmin : UserProfile :=
  { id := "o1", agency_id := none, name := "Orphan Admin", role := Role.agency_admin }

/-- A viewer with no agency. -/
def orphanViewer : UserProfile :=
  { id := "o2", agency_id := none, name := "Orphan Viewer", role := Role.viewer }

/-! ## C3 — permission presets: purity, monotonicity, cross-tenant flags -/

/-- Claim C3: the derived permission set is a pure function of the role
(profiles with equal roles derive equal sets), the presets are
monotonically ordered (`viewer ⊆ agent ⊆ agency_admin`), `super_admin`
is granted every capability, and the cross-tenant capabilities are
granted to none of `viewer`, `agent`, `agency_admin`. -/
theorem permissions_pure_monotone_crossTenant :
    (∀ p q : UserProfile, p.role = q.role →
      PermissionService.getPermissions (some p) = PermissionService.getPermissions (some q))
    ∧ (∀ c : Cap, Permission.capOf PermissionService.getViewerPermissions c = true →
        Permission.capOf PermissionService.getAgentPermissions c = true)
    ∧ (∀ c : Cap, Permission.capOf PermissionService.getAgentPermissions c = true →
        Permission.capOf PermissionService.getAgencyAdminPermissions c = true)
    ∧ (∀ c : Cap, Permission.capOf PermissionService.getSuperAdminPermissions c = true)
    ∧ (∀ c : Cap, crossTenantCap c = true →
        Permission.capOf PermissionService.getViewerPermissions c = false
        ∧ Permission.capOf PermissionService.getAgentPermissions c = false
        ∧ Permission.capOf PermissionService.getAgencyAdminPermissions c = false) := by
  refine ⟨?_, ?_, ?_, ?_, ?_⟩
  · intro p q h
    simp only [PermissionService.getPermissions, h]
  · intro c; cases c <;> decide
  · intro c; cases c <;> decide
  · intro c; cases c <;> decide
  · intro c; cases c <;> decide

/-- Witness for C3 at concrete inputs: two distinct viewer profiles
derive the same set; each implication and each cross-tenant denial is
instantiated at a concrete capability. -/
theorem permissions_pure_monotone_crossTenant_witness :
    PermissionService.getPermissions (some pv1) = PermissionService.getPermissions (some pv2)
    ∧ Permission.capOf PermissionService.getAgentPermissions Cap.canViewProperties = true
    ∧ Permission.capOf PermissionService.getAgencyAdminPermissions Cap.canCreateProperties = true
    ∧ Permission.capOf PermissionService.getSuperAdminPermissions Cap.canViewAllAgencies = true
    ∧ Permission.capOf PermissionService.getAgencyAdminPermissions Cap.canViewAllAgencies = false :=
  ⟨permissions_pure_monotone_crossTenant.1 pv1 pv2 rfl,
   permissions_pure_monotone_crossTenant.2.1 Cap.canViewProperties (by decide),
   permissions_pure_monotone_crossTenant.2.2.1 Cap.canCreateProperties (by decide),
   permissions_pure_monotone_crossTenant.2.2.2.1 Cap.canViewAllAgencies,
   (permissions_pure_monotone_crossTenant.2.2.2.2 Cap.canViewAllAgencies (by decide)).2.2⟩

/-! ## C4 — `canAccessAgency` -/

/-- Claim C4: `canAccessAgency` is `true` unconditionally for
`super_admin`, otherwise `true` iff `profile.agency_id` equals the
agency id, `false` for a null profile; hence a profile bound to `A`
passes for `A` and fails for any distinct `B`. -/
theorem canAccessAgency_spec :
    (∀ aid : String, PermissionService.canAccessAgency none aid = false)
    ∧ (∀ (p : UserProfile) (aid : String), p.role = Role.super_admin →
        PermissionService.canAccessAgency (some p) aid = true)
    ∧ (∀ (p : UserProfile) (aid : String), p.role ≠ Role.super_admin →
        PermissionService.canAccessAgency (some p) aid = (p.agency_id == some aid))
    ∧ (∀ (p : UserProfile) (A B : String), p.agency_id = some A → A ≠ B →
        PermissionService.canAccessAgency (some p) A = true
        ∧ (p.role ≠ Role.super_admin →
            PermissionService.canAccessAgency (some p) B = false)) := by
  refine ⟨fun aid => rfl, ?_, ?_, ?_⟩
  · intro p aid h
    simp [PermissionService.canAccessAgency, h]
  · intro p aid h
    simp [PermissionService.canAccessAgency, h]
  · intro p A B hA hAB
    constructor
    · by_cases hs : p.role = Role.super_admin
      · simp [PermissionService.canAccessAgency, hs]
      · simp [PermissionService.canAccessAgency, hs, hA]
    · intro hs
      simp [PermissionService.canAccessAgency, hs, hA, hAB]

/-- Witness for C4: the agent bound to `A1` passes for `A1` and fails
for `A2`; the null profile fails; a super-admin passes for `A2`. -/
theorem canAccessAgency_spec_witness :
    PermissionService.canAccessAgency none "A1" = false
    ∧ PermissionService.canAccessAgency (some superA) "A2" = true
    ∧ PermissionService.canAccessAgency (some callerA1) "A1"
        = (callerA1.agency_id == some "A1")
    ∧ PermissionService.canAccessAgency (some callerA1) "A1" = true
    ∧ PermissionService.canAccessAgency (some callerA1) "A2" = false :=
  ⟨canAccessAgency_spec.1 "A1",
   canAccessAgency_spec.2.1 superA "A2" rfl,
   canAccessAgency_spec.2.2.1 callerA1 "A1" (by decide),
   (canAccessAgency_spec.2.2.2 callerA1 "A1" "A2" rfl (by decide)).1,
   (canAccessAgency_spec.2.2.2 callerA1 "A1" "A2" rfl (by decide)).2 (by decide)⟩

/-! ## C9 — `canManageUser` and the role-rank hierarchy -/

/-- Counterexample to claim C9: two distinct super-admin principals have
equal role rank, yet `canManageUser` is `true` — the claimed rule
"no role may manage a role at or above its own rank except self" fails
at this input. -/
theorem canManageUser_rank_cex :
    superA.id ≠ superB.id
    ∧ PermissionService.getRoleLevel superA.role
        ≤ PermissionService.getRoleLevel superB.role
    ∧ PermissionService.canManageUser (some superA) superB = true := by
  refine ⟨by decide, by decide, rfl⟩

/-- Claim C9 as amended: the no-manage-at-or-above-rank rule holds
whenever the target is not a `super_admin`: for distinct principals with
`roleRank(target) ≥ roleRank(manager)`, `canManageUser` is `false`.
(The exception forced by the counterexample: a `super_admin` target can
be managed by a `super_admin` manager of equal rank, and by a
same-`agency_id` `agency_admin`.) -/
theorem canManageUser_rank_strict (m t : UserProfile)
    (hid : m.id ≠ t.id) (ht : t.role ≠ Role.super_admin)
    (hrk : PermissionService.getRoleLevel m.role ≤ PermissionService.getRoleLevel t.role) :
    PermissionService.canManageUser (some m) t = false := by
  cases hmr : m.role <;> cases htr : t.role <;>
    simp_all [PermissionService.canManageUser, PermissionService.getRoleLevel,
      beq_iff_eq]

/-- Witness for the amended C9: an agent cannot manage a distinct
agency-admin of the same agency. -/
theorem canManageUser_rank_strict_witness :
    callerA1.id ≠ pv1.id
    ∧ pv1.role ≠ Role.super_admin
    ∧ PermissionService.getRoleLevel callerA1.role
        ≤ PermissionService.getRoleLevel callerA1.role
    ∧ PermissionService.canManageUser (some pv1) callerA1 = false :=
  ⟨by decide, by decide, by decide,
   canManageUser_rank_strict pv1 callerA1 (by decide) (by decide) (by decide)⟩

/-! ## C10 — null-agency equality in `canManageUser` -/

/-- Claim C10: in `canManageUser` the shared-agency test is plain
equality on `agency_id`, so an `agency_admin` manager with a null
`agency_id` can manage every null-agency target whose role is not
`agency_admin` — two agency-less profiles count as the same agency. -/
theorem canManageUser_null_agency (m t : UserProfile)
    (hm : m.role = Role.agency_admin) (hma : m.agency_id = none)
    (hta : t.agency_id = none) (ht : t.role ≠ Role.agency_admin) :
    PermissionService.canManageUser (some m) t = true := by
  simp [PermissionService.canManageUser, hm, hma, hta, ht]

/-- Witness for C10: a concrete agency-less `agency_admin` manages a
concrete agency-less viewer. -/
theorem canManageUser_null_agency_witness :
    orphanAdmin.role = Role.agency_admin
    ∧ orphanAdmin.agency_id = none
    ∧ orphanViewer.agency_id = none
    ∧ orphanViewer.role ≠ Role.agency_admin
    ∧ PermissionService.canManageUser (some orphanAdmin) orphanViewer = true :=
  ⟨rfl, rfl, rfl, by decide,
   canManageUser_null_agency orphanAdmin orphanViewer rfl rfl rfl (by decide)⟩

/-! ## C1 — `addProperty` does not override the payload's agency id -/

/-- The payload of the spec's tenant-isolation scenario: the caller in
agency `A1` supplies `agency_id = "A2"`. -/
def payloadA2 : PropertyInsert :=
  { agency_id := "A2", address := "123 Main", price := 100000,
    listing_type := "For Sale", property_type := "House", status := "Available" }

/-- The row `addProperty` inserts for `payloadA2` on an empty table. -/
def row1 : Property :=
  { id := 1, agency_id := "A2", address := "123 Main", price := 100000,
    listing_type := "For Sale", property_type := "House", bedrooms := 0,
    bathrooms := 0, sqft := 0, status := "Available", agent := none,
    owner_name := none, owner_phone := none, comments := none,
    created_by := some "user-1", updated_by := some "user-1" }

/-- Counterexample to claim C1: the agent bound to agency `A1` creates a
property with client-supplied `agency_id = "A2"`; the created row's
`agency_id` is `"A2"`, not the caller's `"A1"` — `addProperty` does not
override the client-supplied agency id. -/
theorem addProperty_override_cex :
    callerA1.role ≠ Role.super_admin
    ∧ (PropertyService.addProperty (some callerA1.id) { rows := [], nextId := 1 }
        payloadA2).map (fun r => r.2.agency_id) = Except.ok "A2"
    ∧ callerA1.agency_id = some "A1"
    ∧ ("A2" : String) ≠ "A1" :=
  ⟨by decide, rfl, rfl, by decide⟩

/-- Claim C1 as amended: `addProperty` inserts the payload unchanged
except for the audit columns — on success the row's `agency_id` equals
the payload's `agency_id` (whatever the caller's own agency is), its
audit fields are the caller's id, and the row is appended; no
override of the agency reference happens in the create operation. -/
theorem addProperty_payload_passthrough (uid : String) (db db2 : PropDB)
    (p : PropertyInsert) (row : Property)
    (h : PropertyService.addProperty (some uid) db p = Except.ok (db2, row)) :
    row.agency_id = p.agency_id
    ∧ row.created_by = some uid
    ∧ row.updated_by = some uid
    ∧ row.address = p.address
    ∧ db2.rows = db.rows ++ [row] := by
  simp only [PropertyService.addProperty, Except.ok.injEq, Prod.mk.injEq] at h
  obtain ⟨h1, h2⟩ := h
  subst h2
  subst h1
  exact ⟨rfl, rfl, rfl, rfl, rfl⟩

/-- Witness for the amended C1 at the scenario input. -/
theorem addProperty_payload_passthrough_witness :
    PropertyService.addProperty (some "user-1") { rows := [], nextId := 1 } payloadA2
      = Except.ok
          ({ rows := [row1], nextId := 2 }, row1)
    ∧ row1.agency_id = payloadA2.agency_id
    ∧ row1.created_by = some "user-1"
    ∧ row1.updated_by = some "user-1"
    ∧ row1.address = payloadA2.address
    ∧ ({ rows := [row1], nextId := 2 } : PropDB).rows = [] ++ [row1] := by
  refine ⟨rfl, ?_⟩
  have h := addProperty_payload_passthrough "user-1" { rows := [], nextId := 1 }
    { rows := [row1], nextId := 2 } payloadA2 row1 rfl
  exact ⟨h.1, h.2.1, h.2.2.1, h.2.2.2.1, h.2.2.2.2⟩

/-! ## C5 — `deleteProperty` has no capability gate -/

/-- A property of agency `A1` with id 42, the row of the spec's
delete-gate scenario. -/
def prop42 : Property :=
  { id := 42, agency_id := "A1", address := "42 Elm", price := 50000,
    listing_type := "For Sale", property_type := "House", bedrooms := 2,
    bathrooms := 1, sqft := 900, status := "Available", agent := none,
    owner_name := none, owner_phone := none, comments := none,
    created_by := some "user-1", updated_by := some "user-1" }

/-- Counterexample to claim C5: the agent caller's capability set has
`canDeleteProperties = false`, yet `deleteProperty 42` on a row of the
caller's own agency succeeds and removes the row — no `PermissionDenied`
and the row does not stay unchanged. -/
theorem deleteProperty_gate_cex :
    (PermissionService.getPermissions (some callerA1)).canDeleteProperties = false
    ∧ prop42.agency_id = "A1"
    ∧ callerA1.agency_id = some "A1"
    ∧ (PropertyService.deleteProperty { rows := [prop42], nextId := 43 } 42).2
        = Except.ok ()
    ∧ (PropertyService.deleteProperty { rows := [prop42], nextId := 43 } 42).1.rows
        = [] := by
  refine ⟨rfl, rfl, rfl, rfl, by decide⟩

/-- Claim C5 as amended: the agent role's capability set does deny
`canDeleteProperties`, but `deleteProperty` never consults any
capability: for every database and id it reports success and removes
every row with that id, relying on the backend's row policies alone. -/
theorem deleteProperty_no_capability_check (db : PropDB) (pid : Nat)
    (p : UserProfile) (hrole : p.role = Role.agent) :
    (PermissionService.getPermissions (some p)).canDeleteProperties = false
    ∧ (PropertyService.deleteProperty db pid).2 = Except.ok ()
    ∧ (PropertyService.deleteProperty db pid).1.rows
        = db.rows.filter (fun r => !(r.id == pid)) := by
  refine ⟨?_, rfl, rfl⟩
  simp [PermissionService.getPermissions, hrole,
    PermissionService.getAgentPermissions]

/-- Witness for the amended C5 at the scenario input. -/
theorem deleteProperty_no_capability_check_witness :
    callerA1.role = Role.agent
    ∧ (PermissionService.getPermissions (some callerA1)).canDeleteProperties = false
    ∧ (PropertyService.deleteProperty { rows := [prop42], nextId := 43 } 42).2
        = Except.ok ()
    ∧ (PropertyService.deleteProperty { rows := [prop42], nextId := 43 } 42).1.rows
        = ([prop42].filter (fun r => !(r.id == 42))) := by
  have h := deleteProperty_no_capability_check
    { rows := [prop42], nextId := 43 } 42 callerA1 rfl
  exact ⟨rfl, h.1, h.2.1, h.2.2⟩

/-! ## C6 — presentation of tenant-isolation failures -/

/-- Counterexample to claim C6: `handleDatabaseError` presents the
backend's row-level-security rejection (`PGRST116`) as an
`RLS_VIOLATION` with the user message "You do not have permission to
access this data. ..." — a permission-denied presentation, not a
`NotFound` one. -/
theorem tenantIsolation_presentation_cex :
    (ErrorHandler.handleDatabaseError { code := some "PGRST116" }).code
        = "RLS_VIOLATION"
    ∧ (ErrorHandler.handleDatabaseError { code := some "PGRST116" }).userMessage
        = "You do not have permission to access this data. Please contact your administrator."
    ∧ (ErrorHandler.handleDatabaseError { code := some "PGRST116" }).code
        ≠ "NOT_FOUND" :=
  ⟨rfl, rfl, by decide⟩

/-- Claim C6 as amended: the single-row fetch path of `getPropertyById`
does map the backend's `PGRST116` rejection to `null` (absent row), but
`ErrorHandler.handleDatabaseError` maps the same rejection — and any
message containing `violates row-level security` — to `RLS_VIOLATION`
with a permission-denial user message, so tenant-isolation failures
routed through the error handler are presented as permission errors,
not as `NotFound`. -/
theorem rls_rejection_presentation (e e2 : DbError)
    (he : e.code = some "PGRST116")
    (he2c : e2.code = none)
    (he2m : e2.message = some "new row violates row-level security policy") :
    PropertyService.getPropertyById (Except.error e) = Except.ok none
    ∧ ErrorHandler.handleDatabaseError e =
        { code := "RLS_VIOLATION", message := "Row Level Security violation",
          userMessage := "You do not have permission to access this data. Please contact your administrator." }
    ∧ (ErrorHandler.handleDatabaseError e2).code = "RLS_VIOLATION" := by
  refine ⟨?_, ?_, ?_⟩
  · simp [PropertyService.getPropertyById, he]
  · simp [ErrorHandler.handleDatabaseError, he]
  · simp [ErrorHandler.handleDatabaseError, he2c, he2m]
    decide

/-- Witness for the amended C6 at concrete errors. -/
theorem rls_rejection_presentation_witness :
    PropertyService.getPropertyById
        (Except.error ({ code := some "PGRST116" } : DbError)) = Except.ok none
    ∧ ErrorHandler.handleDatabaseError { code := some "PGRST116" } =
        { code := "RLS_VIOLATION", message := "Row Level Security violation",
          userMessage := "You do not have permission to access this data. Please contact your administrator." }
    ∧ (ErrorHandler.handleDatabaseError
        { code := none,
          message := some "new row violates row-level security policy" }).code
        = "RLS_VIOLATION" := by
  have h := rls_rejection_presentation { code := some "PGRST116" }
    { code := none, message := some "new row violates row-level security policy" }
    rfl rfl rfl
  exact ⟨h.1, h.2.1, h.2.2⟩

/-! ## C7 — ordinary signup never bootstraps a super-admin -/

/-- The empty system: no agencies, no profiles. -/
def emptyAuthState : AuthState := {}

/-- Counterexample to claim C7: in an empty system, the very first
ordinary signup creates a profile with role `'admin'` bound to a fresh
agency — not a `super_admin` with a null agency — and the second signup
also gets `'admin'`, not the restricted `'viewer'` default. -/
theorem signUp_bootstrap_cex :
    emptyAuthState.profiles = []
    ∧ (signUp emptyAuthState "u1" "Alice" "Acme").2.role = "admin"
    ∧ (signUp emptyAuthState "u1" "Alice" "Acme").2.role ≠ "super_admin"
    ∧ (signUp emptyAuthState "u1" "Alice" "Acme").2.agency_id ≠ none
    ∧ (signUp (signUp emptyAuthState "u1" "Alice" "Acme").1 "u2" "Bob" "Beta").2.role
        ≠ "viewer" :=
  ⟨rfl, rfl, by decide, by decide, by decide⟩

/-- Claim C7 as amended: every ordinary signup — the first one in an
empty system included — creates a fresh agency named by the caller and a
profile with the literal role `'admin'` bound to that agency; there is
no first-signup `super_admin` bootstrap and no `'viewer'` default for
later signups. -/
theorem signUp_always_creates_admin (s : AuthState) (uid name agencyName : String) :
    (signUp s uid name agencyName).2.role = "admin"
    ∧ (signUp s uid name agencyName).2.agency_id = some (freshAgencyId s)
    ∧ (signUp s uid name agencyName).1.profiles
        = s.profiles ++ [(signUp s uid name agencyName).2]
    ∧ (signUp s uid name agencyName).1.agencies
        = s.agencies ++ [{ id := freshAgencyId s, name := agencyName }] :=
  ⟨rfl, rfl, rfl, rfl⟩

/-! ## C8 — `resendInvitation` regenerates without a `used_at` guard -/

/-- An invitation that has already been redeemed. -/
def usedInv : AgencyInvitation :=
  { id := "inv-1", agency_id := "A1", email := "x@y.com", role := InvRole.agent,
    token := "tok-old", expires_at := 1000, used_at := some 500 }

/-- Counterexample to claim C8: `resendInvitation` on an invitation
whose `used_at` is set still succeeds, replacing the token and expiry —
the operation regenerates an already-used invitation, contradicting
"only valid while `used_at IS NULL`". -/
theorem resendInvitation_used_cex :
    usedInv.used_at = some 500
    ∧ AgencyService.resendInvitation [usedInv] "inv-1" "tok-new" 2000
        = Except.ok
            ([{ usedInv with token := "tok-new", expires_at := 2000 + sevenDaysMs }],
             { usedInv with token := "tok-new", expires_at := 2000 + sevenDaysMs }) :=
  ⟨rfl, rfl⟩

/-- Claim C8 as amended: `resendInvitation` on an existing invitation
replaces the token, resets `expires_at` to `now + 7 days`, and leaves
`email`, `role`, `agency_id`, `invited_by` and `used_at` unchanged — but
it performs no `used_at IS NULL` check, so it succeeds for used
invitations too. -/
theorem resendInvitation_frame (db : List AgencyInvitation)
    (invId newToken : String) (now : Nat) (inv : AgencyInvitation)
    (hf : db.find? (fun i => i.id == invId) = some inv) :
    ∃ out : List AgencyInvitation × AgencyInvitation,
      AgencyService.resendInvitation db invId newToken now = Except.ok out
      ∧ out.2.token = newToken
      ∧ out.2.expires_at = now + sevenDaysMs
      ∧ out.2.email = inv.email
      ∧ out.2.role = inv.role
      ∧ out.2.agency_id = inv.agency_id
      ∧ out.2.invited_by = inv.invited_by
      ∧ out.2.used_at = inv.used_at := by
  refine ⟨(db.map (fun i => if i.id == invId then
      { i with token := newToken, expires_at := now + sevenDaysMs } else i),
    { inv with token := newToken, expires_at := now + sevenDaysMs }),
    ?_, rfl, rfl, rfl, rfl, rfl, rfl, rfl⟩
  unfold AgencyService.resendInvitation
  rw [hf]

/-- Witness for the amended C8: the used invitation is regenerated with
all identity fields, `used_at` included, unchanged. -/
theorem resendInvitation_frame_witness :
    ([usedInv].find? (fun i => i.id == "inv-1") = some usedInv)
    ∧ ∃ out : List AgencyInvitation × AgencyInvitation,
        AgencyService.resendInvitation [usedInv] "inv-1" "tok-new" 2000
          = Except.ok out
        ∧ out.2.token = "tok-new"
        ∧ out.2.expires_at = 2000 + sevenDaysMs
        ∧ out.2.email = usedInv.email
        ∧ out.2.role = usedInv.role
        ∧ out.2.agency_id = usedInv.agency_id
        ∧ out.2.invited_by = usedInv.invited_by
        ∧ out.2.used_at = usedInv.used_at :=
  ⟨by decide, resendInvitation_frame [usedInv] "inv-1" "tok-new" 2000 usedInv (by decide)⟩

/-! ## C2 — at-most-once redemption of an invitation token -/

/-- Marking a token used rewrites the row `find?` locates and nothing
about its position: after the update, lookup of the token yields the
same invitation with `used_at` stamped. -/
theorem find_token_after_mark (l : List AgencyInvitation) (token : String)
    (now : Nat) (inv : AgencyInvitation)
    (h : l.find? (fun i => i.token == token) = some inv) :
    (l.map (fun i =>
        if i.token == token then { i with used_at := some now } else i)).find?
      (fun i => i.token == token) = some { inv with used_at := some now } := by
  induction l with
  | nil => simp at h
  | cons a l ih =>
    rw [List.find?_cons] at h
    cases ha : (a.token == token) with
    | true =>
      rw [ha] at h
      injection h with h
      subst h
      simp only [List.map_cons, ha, if_true]
      exact List.find?_cons_of_pos _ ha
    | false =>
      rw [ha] at h
      simp only [List.map_cons, ha, Bool.false_eq_true, if_false]
      rw [List.find?_cons, ha]
      exact ih h

/-- Redeeming a token whose invitation is already used is a no-op that
reports `AlreadyUsed`. -/
theorem acceptInvitation_of_used (s : RedeemState) (token identity : String)
    (now t0 : Nat) (inv : AgencyInvitation)
    (hf : s.invitations.find? (fun i => i.token == token) = some inv)
    (hu : inv.used_at = some t0) :
    acceptInvitation s token identity now = (s, RedeemResult.alreadyUsed) := by
  simp [acceptInvitation, hf, hu]

/-- Any number of further redemption attempts after the token is used
all fail with `AlreadyUsed` and leave the state untouched. -/
theorem acceptAll_of_used (s : RedeemState) (token : String) (ids : List String)
    (now t0 : Nat) (inv : AgencyInvitation)
    (hf : s.invitations.find? (fun i => i.token == token) = some inv)
    (hu : inv.used_at = some t0) :
    acceptAll s token ids now = (s, ids.map (fun _ => RedeemResult.alreadyUsed)) := by
  induction ids with
  | nil => rfl
  | cons id rest ih =>
    simp [acceptAll, acceptInvitation_of_used s token id now t0 inv hf hu, ih]

/-- Claim C2: redemption is at-most-once. Starting from a state whose
invitation for the token is pending (unused, unexpired), any sequence of
redemption attempts with distinct identities — each attempt one atomic
step, so any concurrent schedule is equivalent to such a sequence, and a
crash cannot separate profile-creation from `used_at`-stamping — yields
exactly one success, `AlreadyUsed` for all of the remaining N−1, and
exactly one new profile. -/
theorem acceptInvitation_at_most_once (s : RedeemState) (token : String)
    (ids : List String) (now : Nat) (inv : AgencyInvitation)
    (hf : s.invitations.find? (fun i => i.token == token) = some inv)
    (hu : inv.used_at = none)
    (hexp : now < inv.expires_at)
    (hne : ids ≠ [])
    (hnd : ids.Nodup) :
    ((acceptAll s token ids now).2.countP RedeemResult.isOk) = 1
    ∧ ((acceptAll s token ids now).2.countP RedeemResult.isAlreadyUsed)
        = ids.length - 1
    ∧ (acceptAll s token ids now).1.profiles.length = s.profiles.length + 1 := by
  cases ids with
  | nil => exact absurd rfl hne
  | cons id rest =>
    have hstep : acceptInvitation s token id now =
        ({ invitations := s.invitations.map (fun i =>
              if i.token == token then { i with used_at := some now } else i)
           profiles := s.profiles ++
             [{ id := id, agency_id := some inv.agency_id, role := inv.role }] },
         RedeemResult.ok
           { id := id, agency_id := some inv.agency_id, role := inv.role }) := by
      simp [acceptInvitation, hf, hu, Nat.not_le.mpr hexp]
    have hmark := find_token_after_mark s.invitations token now inv hf
    have hrest := acceptAll_of_used
      { invitations := s.invitations.map (fun i =>
          if i.token == token then { i with used_at := some now } else i)
        profiles := s.profiles ++
          [{ id := id, agency_id := some inv.agency_id, role := inv.role }] }
      token rest now now { inv with used_at := some now } hmark rfl
    simp only [acceptAll, hstep, hrest, List.countP_cons, List.countP_map]
    refine ⟨?_, ?_, ?_⟩
    · simp [RedeemResult.isOk, Function.comp]
    · simp [RedeemResult.isAlreadyUsed, Function.comp]
    · simp

/-- A pending invitation for the redemption witness. -/
def pendingInv : AgencyInvitation :=
  { id := "inv-2", agency_id := "A1", email := "x@y.com", role := InvRole.agent,
    token := "tok-1", expires_at := 10, used_at := none }

/-- Witness for C2: three concurrent redemption attempts with distinct
identities on one pending token — one success, two `AlreadyUsed`, one
profile created. -/
theorem acceptInvitation_at_most_once_witness :
    (RedeemState.mk [pendingInv] []).invitations.find?
        (fun i => i.token == "tok-1") = some pendingInv
    ∧ pendingInv.used_at = none
    ∧ 0 < pendingInv.expires_at
    ∧ (["u1", "u2", "u3"] : List String) ≠ []
    ∧ (["u1", "u2", "u3"] : List String).Nodup
    ∧ ((acceptAll (RedeemState.mk [pendingInv] []) "tok-1" ["u1", "u2", "u3"] 0).2.countP
        RedeemResult.isOk) = 1
    ∧ ((acceptAll (RedeemState.mk [pendingInv] []) "tok-1" ["u1", "u2", "u3"] 0).2.countP
        RedeemResult.isAlreadyUsed) = (["u1", "u2", "u3"] : List String).length - 1
    ∧ (acceptAll (RedeemState.mk [pendingInv] []) "tok-1" ["u1", "u2", "u3"] 0).1.profiles.length
        = (RedeemState.mk [pendingInv] []).profiles.length + 1 := by
  have h := acceptInvitation_at_most_once (RedeemState.mk [pendingInv] []) "tok-1"
    ["u1", "u2", "u3"] 0 pendingInv (by decide) rfl (by decide) (by decide) (by decide)
  exact ⟨by decide, rfl, by decide, by decide, by decide, h.1, h.2.1, h.2.2⟩

end RealEstate
